import Mathlib

/-!
Verification of the jSquash JPEG XL codec wrapper
(`src/packages/jxl/codec/enc/jxl_enc.cpp`, `src/packages/jxl/codec/dec/jxl_dec.cpp`)
against its natural-language specification.

The C++ functions are shallowly embedded: machine `size_t` arithmetic is
modelled as `Nat` with the platform maximum passed explicitly as `max_size`
(on the wasm32 target `size_t` is 32-bit, so `max_size = 2^32 - 1`; the
theorems are parametric in it), C `int` is modelled as `Int`, `float`
values as `ℝ`, fallible code returns `Option`.
-/

namespace JxlEnc

/-- Embedding of `ComputeExpectedSize` (jxl_enc.cpp lines 40-59).
`width`/`height` are the `uint32_t` arguments, `num_channels` the C `int`,
`bytes_per_sample` the `size_t` argument; `max_size` stands for
`std::numeric_limits<size_t>::max()`.  The C code writes the product through
an out-parameter and returns `bool`; here `some product` models the
successful path and `none` the `return false` paths.  The guards
`width_s > max_size / height_s` etc. use C unsigned (truncating) division,
which `Nat` division matches exactly. -/
def ComputeExpectedSize (max_size : ℕ) (width height : ℕ) (num_channels : ℤ)
    (bytes_per_sample : ℕ) : Option ℕ :=
  if width = 0 ∨ height = 0 ∨ num_channels ≤ 0 ∨ bytes_per_sample = 0 then
    none
  else
    let channels_s : ℕ := num_channels.toNat
    if max_size / height < width then none
    else
      let pixels := width * height
      if max_size / channels_s < pixels then none
      else
        let samples := pixels * channels_s
        if max_size / bytes_per_sample < samples then none
        else some (samples * bytes_per_sample)

/-- Embedding of `IsSupportedCombination` (jxl_enc.cpp lines 61-66). -/
def IsSupportedCombination (input_type bit_depth : ℤ) : Bool :=
  if input_type = 0 then decide (bit_depth = 8)
  else if input_type = 1 then
    decide (bit_depth = 10) || decide (bit_depth = 12) || decide (bit_depth = 16)
  else if input_type = 2 then decide (bit_depth = 32)
  else false

/-- The `bytes_per_sample` selection in `encode` (jxl_enc.cpp lines 124-132):
1 for uint8 input, 2 for uint16, 4 for float32. -/
def bytesPerSampleOf (input_type : ℤ) : ℕ :=
  if input_type = 1 then 2 else if input_type = 2 then 4 else 1

/-- The validation prefix of `encode` (jxl_enc.cpp lines 111-142): every
check that runs before `JxlEncoderCreate` is called at line 144-145.
Returns `true` exactly when control reaches the Codec-Engine creation;
each `false` corresponds to an early `return val::null()`. -/
def encodeValidates (max_size : ℕ) (width height numChannels inputType bitDepth : ℤ)
    (imageLen : ℕ) : Bool :=
  if width ≤ 0 ∨ height ≤ 0 then false
  else if numChannels ≠ 3 ∧ numChannels ≠ 4 then false
  else if IsSupportedCombination inputType bitDepth = false then false
  else
    match ComputeExpectedSize max_size width.toNat height.toNat numChannels
        (bytesPerSampleOf inputType) with
    | none => false
    | some expected_size => decide (expected_size = imageLen)

end JxlEnc

namespace JxlDec

/-- The effective-bit-depth computation in `decodeHighBitDepth`
(jxl_dec.cpp lines 140-153), from the bitstream's reported
`bits_per_sample` and `exponent_bits_per_sample` (both `uint32_t`). -/
def effectiveBitDepth (bits_per_sample exponent_bits : ℕ) : ℕ :=
  if exponent_bits > 0 then 32
  else if bits_per_sample ≤ 8 then 8
  else if bits_per_sample ≤ 10 then 10
  else if bits_per_sample ≤ 12 then 12
  else 16

/-- The `colorSpace` string computed by `decodeHighBitDepth`
(jxl_dec.cpp lines 183-187): default `"srgb"`, overwritten with
`"linear"` when `exponent_bits > 0`. -/
def highBitDepthColorSpace (exponent_bits : ℕ) : String :=
  if exponent_bits > 0 then "linear" else "srgb"

/-- The `colorSpace` string computed by `decodeLinearFloat`
(jxl_dec.cpp lines 320-325): default `"srgb"`, overwritten with
`"linear"` when `info.exponent_bits_per_sample > 0`. -/
def linearFloatColorSpace (exponent_bits : ℕ) : String :=
  if exponent_bits > 0 then "linear" else "srgb"

end JxlDec

namespace JxlEnc

/-- The `JxlColorSpace` values used by `SetupColorEncoding`. -/
inductive ColorSpaceTag
  | rgb
  | gray
deriving DecidableEq, Repr

/-- The `JxlWhitePoint` values used by `SetupColorEncoding`. -/
inductive WhitePointTag
  | d65
deriving DecidableEq, Repr

/-- The `JxlPrimaries` values used by `SetupColorEncoding`. -/
inductive PrimariesTag
  | srgb
  | p3
  | bt2100
deriving DecidableEq, Repr

/-- The `JxlTransferFunction` values used by `SetupColorEncoding`. -/
inductive TransferTag
  | linear
  | srgb
  | pq
  | hlg
deriving DecidableEq, Repr

/-- The `JxlRenderingIntent` values used by `SetupColorEncoding`. -/
inductive IntentTag
  | perceptual
  | relative
deriving DecidableEq, Repr

/-- The fields of `JxlColorEncoding` that `SetupColorEncoding` assigns. -/
structure JxlColorEncoding where
  color_space : ColorSpaceTag
  white_point : WhitePointTag
  primaries : PrimariesTag
  transfer_function : TransferTag
  rendering_intent : IntentTag
deriving DecidableEq, Repr

/-- Modelled from the spec: `JxlColorEncodingSetToSRGB` is a Codec-Engine
library routine not part of this repository; per the spec's §4.3 it yields
the standard (gamma-encoded) sRGB encoding: sRGB primaries and transfer,
D65 white point. -/
def setToSRGB : JxlColorEncoding :=
  { color_space := ColorSpaceTag.rgb, white_point := WhitePointTag.d65,
    primaries := PrimariesTag.srgb, transfer_function := TransferTag.srgb,
    rendering_intent := IntentTag.relative }

/-- Modelled from the spec: `JxlColorEncodingSetToLinearSRGB` is a
Codec-Engine library routine not part of this repository; per the spec's
§4.3 it yields the linear-light sRGB encoding: sRGB primaries, linear
transfer, D65 white point. -/
def setToLinearSRGB : JxlColorEncoding :=
  { setToSRGB with transfer_function := TransferTag.linear }

/-- Embedding of `SetupColorEncoding` (jxl_enc.cpp lines 68-103).  The C
function mutates a caller-supplied `JxlColorEncoding` and returns `bool`;
here the net effect of each successful path is the returned record
(`color_space`, `white_point` and `rendering_intent` are assigned at lines
79-81 before the branch on `color_space`), and the `return false` path for
an unrecognized color space is `none`. -/
def SetupColorEncoding (color_space input_type : ℤ) : Option JxlColorEncoding :=
  if color_space = 0 then
    some (if input_type = 2 then setToLinearSRGB else setToSRGB)
  else if color_space = 1 then
    some { color_space := ColorSpaceTag.rgb, white_point := WhitePointTag.d65,
           rendering_intent := IntentTag.perceptual, primaries := PrimariesTag.p3,
           transfer_function :=
             if input_type = 2 then TransferTag.linear else TransferTag.srgb }
  else if color_space = 2 then
    some { color_space := ColorSpaceTag.rgb, white_point := WhitePointTag.d65,
           rendering_intent := IntentTag.perceptual,
           primaries := PrimariesTag.bt2100, transfer_function := TransferTag.pq }
  else if color_space = 3 then
    some { color_space := ColorSpaceTag.rgb, white_point := WhitePointTag.d65,
           rendering_intent := IntentTag.perceptual,
           primaries := PrimariesTag.bt2100, transfer_function := TransferTag.hlg }
  else none

/-- Status codes returned by the Codec Engine's `JxlEncoderProcessOutput`,
as branched on by the output-collection loop (jxl_enc.cpp lines 306-324). -/
inductive EncStatus
  | success
  | needMoreOutput
  | error
deriving DecidableEq, Repr

/-- One call to the external `JxlEncoderProcessOutput`: the engine writes
`chunk` into the buffer at `next_out` (advancing `next_out` and shrinking
`avail_out` by `chunk.length`) and returns `status`. -/
structure EngineStep where
  status : EncStatus
  chunk : List ℕ
deriving DecidableEq, Repr

/-- Embedding of the output-collection loop of `encode`
(jxl_enc.cpp lines 302-326).  The state of `compressed`/`next_out`/`avail_out`
is tracked as `capacity` (= `compressed.size()`) and `written`
(the bytes before `next_out`, so `avail_out = capacity - written.length`).
The external engine is an oracle given as a script of steps, consumed one
per iteration; a step whose chunk would not fit in `avail_out`, or an
exhausted script (the C loop would keep spinning), falls outside the
modelled behaviour and is mapped to `none`.
On `JXL_ENC_NEED_MORE_OUTPUT` the code resizes to `compressed.size() * 2`,
re-centers `next_out` at the preserved offset and retries; on
`JXL_ENC_SUCCESS` it resizes down to `next_out - compressed.data()` and
returns the buffer; on any other status it returns `val::null()` (`none`). -/
def collectFrom : ℕ → List ℕ → List EngineStep → Option (List ℕ)
  | _, _, [] => none
  | capacity, written, step :: rest =>
    if step.chunk.length ≤ capacity - written.length then
      match step.status with
      | .success => some (written ++ step.chunk)
      | .needMoreOutput => collectFrom (2 * capacity) (written ++ step.chunk) rest
      | .error => none
    else none

/-- The loop as entered by `encode`: `std::vector<uint8_t> compressed(8192)`
with `next_out` at the start, i.e. capacity 8192 and nothing written. -/
def encodeCollectOutput (script : List EngineStep) : Option (List ℕ) :=
  collectFrom 8192 [] script

end JxlEnc

namespace JxlEnc

/-- C1 (amended): for positive `width`, `height`, `num_channels` and
`bytes_per_sample`, `ComputeExpectedSize` returns the exact product
`width*height*channels*bytesPerSample` whenever that product does not
exceed the maximum representable `size_t`, and reports failure whenever
the true product would exceed it.  (The original claim, quantified over
every input, fails at zero dimensions: see the counterexample.) -/
theorem computeExpectedSize_correct (M w h : ℕ) (c : ℤ) (b : ℕ)
    (hw : 0 < w) (hh : 0 < h) (hc : 0 < c) (hb : 0 < b) :
    (w * h * c.toNat * b ≤ M →
      ComputeExpectedSize M w h c b = some (w * h * c.toNat * b)) ∧
    (M < w * h * c.toNat * b → ComputeExpectedSize M w h c b = none) := by
  have hc' : 0 < c.toNat := by omega
  have hguard : ¬ (w = 0 ∨ h = 0 ∨ c ≤ 0 ∨ b = 0) := by
    push_neg
    exact ⟨by omega, by omega, by omega, by omega⟩
  have hm1 : w * h ≤ w * h * c.toNat := Nat.le_mul_of_pos_right _ hc'
  have hm2 : w * h * c.toNat ≤ w * h * c.toNat * b := Nat.le_mul_of_pos_right _ hb
  constructor
  · intro hle
    have g1 : ¬ (M / h < w) := by
      rw [Nat.div_lt_iff_lt_mul hh]
      omega
    have g2 : ¬ (M / c.toNat < w * h) := by
      rw [Nat.div_lt_iff_lt_mul hc']
      omega
    have g3 : ¬ (M / b < w * h * c.toNat) := by
      rw [Nat.div_lt_iff_lt_mul hb]
      omega
    simp only [ComputeExpectedSize]
    rw [if_neg hguard, if_neg g1, if_neg g2, if_neg g3]
  · intro hgt
    simp only [ComputeExpectedSize]
    rw [if_neg hguard]
    by_cases g1 : M / h < w
    · rw [if_pos g1]
    rw [if_neg g1]
    by_cases g2 : M / c.toNat < w * h
    · rw [if_pos g2]
    rw [if_neg g2]
    by_cases g3 : M / b < w * h * c.toNat
    · rw [if_pos g3]
    exfalso
    rw [Nat.div_lt_iff_lt_mul hb] at g3
    omega

/-- Witness for C1's amended theorem at a concrete input
(2 × 3 pixels, 3 channels, 1 byte per sample, 32-bit `size_t`). -/
theorem computeExpectedSize_correct_witness :
    ComputeExpectedSize (2 ^ 32 - 1) 2 3 3 1 = some (2 * 3 * (3 : ℤ).toNat * 1) :=
  (computeExpectedSize_correct (2 ^ 32 - 1) 2 3 3 1
    (by decide) (by decide) (by decide) (by decide)).1 (by decide)

/-- Counterexample to C1 as stated: at `width = 0` the true mathematical
product is `0`, which does not exceed the maximum representable `size_t`,
yet `ComputeExpectedSize` returns failure (jxl_enc.cpp line 42). -/
theorem computeExpectedSize_claim_fails_at_zero :
    0 * 1 * (3 : ℤ).toNat * 1 ≤ 2 ^ 32 - 1 ∧
    ComputeExpectedSize (2 ^ 32 - 1) 0 1 3 1 = none := by
  constructor
  · decide
  · rfl

end JxlEnc

namespace JxlDec

/-- C3: the effective bit depth computed by `decodeHighBitDepth` is 32
whenever `exponent_bits_per_sample > 0`, and otherwise 8, 10, 12 or 16
according to which range `bits_per_sample` falls in. -/
theorem effectiveBitDepth_spec (bits e : ℕ) :
    (0 < e → effectiveBitDepth bits e = 32) ∧
    (e = 0 → bits ≤ 8 → effectiveBitDepth bits e = 8) ∧
    (e = 0 → 8 < bits → bits ≤ 10 → effectiveBitDepth bits e = 10) ∧
    (e = 0 → 10 < bits → bits ≤ 12 → effectiveBitDepth bits e = 12) ∧
    (e = 0 → 12 < bits → effectiveBitDepth bits e = 16) := by
  unfold effectiveBitDepth
  refine ⟨?_, ?_, ?_, ?_, ?_⟩ <;> intros <;> split_ifs <;> omega

/-- Witness for C3 at `bits_per_sample = 13`, `exponent_bits = 0`. -/
theorem effectiveBitDepth_spec_witness : effectiveBitDepth 13 0 = 16 :=
  (effectiveBitDepth_spec 13 0).2.2.2.2 rfl (by decide)

/-- C10: both decode entry points label the color space `"linear"` exactly
when the bitstream reports `exponent_bits_per_sample > 0` and `"srgb"`
otherwise; no other label is ever produced. -/
theorem colorSpace_label_spec (e : ℕ) :
    (0 < e → highBitDepthColorSpace e = "linear" ∧ linearFloatColorSpace e = "linear") ∧
    (e = 0 → highBitDepthColorSpace e = "srgb" ∧ linearFloatColorSpace e = "srgb") ∧
    (highBitDepthColorSpace e = "linear" ∨ highBitDepthColorSpace e = "srgb") ∧
    (linearFloatColorSpace e = "linear" ∨ linearFloatColorSpace e = "srgb") := by
  unfold highBitDepthColorSpace linearFloatColorSpace
  split_ifs with hpos
  · exact ⟨fun _ => ⟨rfl, rfl⟩, fun he => absurd he (by omega), Or.inl rfl, Or.inl rfl⟩
  · exact ⟨fun h0 => absurd h0 (by omega), fun _ => ⟨rfl, rfl⟩, Or.inr rfl, Or.inr rfl⟩

/-- Witness for C10 at `exponent_bits = 8`. -/
theorem colorSpace_label_spec_witness :
    highBitDepthColorSpace 8 = "linear" ∧ linearFloatColorSpace 8 = "linear" :=
  (colorSpace_label_spec 8).1 (by decide)

end JxlDec

namespace JxlEnc

/-- C7: the validation prefix of `encode`, which runs in its entirety before
`JxlEncoderCreate` is reached (so a rejection allocates no engine object),
rejects every input violating any rule: non-positive dimensions, a channel
count outside {3,4}, an unsupported (inputType, bitDepth) pair, size
overflow, or a buffer length different from the expected size; in
particular (uint8, 16) is rejected and (uint16, 12) accepted. -/
theorem encode_validation_rejects (M : ℕ) (w h c t d : ℤ) (len : ℕ) :
    ((w ≤ 0 ∨ h ≤ 0) → encodeValidates M w h c t d len = false) ∧
    ((c ≠ 3 ∧ c ≠ 4) → encodeValidates M w h c t d len = false) ∧
    (IsSupportedCombination t d = false → encodeValidates M w h c t d len = false) ∧
    (ComputeExpectedSize M w.toNat h.toNat c (bytesPerSampleOf t) = none →
      encodeValidates M w h c t d len = false) ∧
    (∀ sz, ComputeExpectedSize M w.toNat h.toNat c (bytesPerSampleOf t) = some sz →
      sz ≠ len → encodeValidates M w h c t d len = false) ∧
    IsSupportedCombination 0 16 = false ∧
    IsSupportedCombination 1 12 = true := by
  refine ⟨?_, ?_, ?_, ?_, ?_, by decide, by decide⟩
  · intro hwh
    simp only [encodeValidates]
    rw [if_pos hwh]
  · intro hcc
    simp only [encodeValidates]
    split_ifs <;> rfl
  · intro hsupp
    simp only [encodeValidates]
    split_ifs <;> rfl
  · intro hnone
    simp only [encodeValidates]
    split_ifs with h1 h2 h3 <;> try rfl
    simp only [hnone]
  · intro sz hsome hne
    simp only [encodeValidates]
    split_ifs with h1 h2 h3 <;> try rfl
    simp only [hsome]
    exact decide_eq_false hne

/-- Witness for C7 at a concrete violating input: 2 × 3 image with 5
channels is rejected. -/
theorem encode_validation_rejects_witness :
    encodeValidates (2 ^ 32 - 1) 2 3 5 0 8 18 = false :=
  (encode_validation_rejects (2 ^ 32 - 1) 2 3 5 0 8 18).2.1 (by decide)

/-- C6: `SetupColorEncoding` is a pure function of (colorSpace, inputType):
sRGB (0) yields linear-light sRGB when the input type is float (2) and
standard sRGB otherwise; Display-P3 (1) yields P3 primaries, D65 white
point, linear transfer if float else sRGB transfer; Rec2020-PQ (2) yields
BT.2100 primaries with PQ transfer independent of the input type;
Rec2020-HLG (3) yields BT.2100 primaries with HLG transfer; every other
color-space value fails. -/
theorem setupColorEncoding_spec (cs it : ℤ) :
    (cs = 0 → it = 2 → SetupColorEncoding cs it = some setToLinearSRGB) ∧
    (cs = 0 → it ≠ 2 → SetupColorEncoding cs it = some setToSRGB) ∧
    (cs = 1 → ∃ e, SetupColorEncoding cs it = some e ∧
      e.primaries = PrimariesTag.p3 ∧ e.white_point = WhitePointTag.d65 ∧
      e.transfer_function =
        (if it = 2 then TransferTag.linear else TransferTag.srgb)) ∧
    (cs = 2 → ∃ e, SetupColorEncoding cs it = some e ∧
      e.primaries = PrimariesTag.bt2100 ∧ e.transfer_function = TransferTag.pq) ∧
    (cs = 3 → ∃ e, SetupColorEncoding cs it = some e ∧
      e.primaries = PrimariesTag.bt2100 ∧ e.transfer_function = TransferTag.hlg) ∧
    (cs ≠ 0 → cs ≠ 1 → cs ≠ 2 → cs ≠ 3 → SetupColorEncoding cs it = none) := by
  refine ⟨?_, ?_, ?_, ?_, ?_, ?_⟩
  · rintro rfl rfl
    rfl
  · rintro rfl hit
    simp [SetupColorEncoding, hit]
  · rintro rfl
    refine ⟨{ color_space := ColorSpaceTag.rgb, white_point := WhitePointTag.d65,
              rendering_intent := IntentTag.perceptual, primaries := PrimariesTag.p3,
              transfer_function :=
                if it = 2 then TransferTag.linear else TransferTag.srgb },
            ?_, rfl, rfl, rfl⟩
    simp [SetupColorEncoding]
  · rintro rfl
    refine ⟨{ color_space := ColorSpaceTag.rgb, white_point := WhitePointTag.d65,
              rendering_intent := IntentTag.perceptual,
              primaries := PrimariesTag.bt2100,
              transfer_function := TransferTag.pq }, ?_, rfl, rfl⟩
    simp [SetupColorEncoding]
  · rintro rfl
    refine ⟨{ color_space := ColorSpaceTag.rgb, white_point := WhitePointTag.d65,
              rendering_intent := IntentTag.perceptual,
              primaries := PrimariesTag.bt2100,
              transfer_function := TransferTag.hlg }, ?_, rfl, rfl⟩
    simp [SetupColorEncoding]
  · intro h0 h1 h2 h3
    simp only [SetupColorEncoding, if_neg h0, if_neg h1, if_neg h2, if_neg h3]

/-- Witness for C6: colorSpace sRGB with float input yields the
linear-light sRGB encoding. -/
theorem setupColorEncoding_spec_witness :
    SetupColorEncoding 0 2 = some setToLinearSRGB :=
  (setupColorEncoding_spec 0 2).1 rfl rfl

/-- C4: the output-collection loop of `encode` starts from capacity exactly
8192 with nothing written; on `NEED_MORE_OUTPUT` it doubles the capacity,
preserving the already-written bytes and their offset, and retries; on
success it returns exactly the written bytes (final length = bytes written,
no trailing slack); on any other status it returns the failure sentinel.
Moreover any successful run returns a byte sequence extending the bytes
already written on entry. -/
theorem collectOutput_spec :
    (∀ script, encodeCollectOutput script = collectFrom 8192 [] script) ∧
    (∀ cap written s rest, s.status = EncStatus.needMoreOutput →
      s.chunk.length ≤ cap - written.length →
      collectFrom cap written (s :: rest) =
        collectFrom (2 * cap) (written ++ s.chunk) rest) ∧
    (∀ cap written s rest, s.status = EncStatus.success →
      s.chunk.length ≤ cap - written.length →
      collectFrom cap written (s :: rest) = some (written ++ s.chunk) ∧
      (written ++ s.chunk).length = written.length + s.chunk.length) ∧
    (∀ cap written s rest, s.status = EncStatus.error →
      collectFrom cap written (s :: rest) = none) ∧
    (∀ script cap written out, collectFrom cap written script = some out →
      ∃ tail, out = written ++ tail) := by
  refine ⟨fun _ => rfl, ?_, ?_, ?_, ?_⟩
  · intro cap written s rest hst hfit
    simp only [collectFrom, if_pos hfit, hst]
  · intro cap written s rest hst hfit
    constructor
    · simp only [collectFrom, if_pos hfit, hst]
    · exact List.length_append _ _
  · intro cap written s rest hst
    by_cases hfit : s.chunk.length ≤ cap - written.length
    · simp only [collectFrom, if_pos hfit, hst]
    · simp only [collectFrom, if_neg hfit]
  · intro script
    induction script with
    | nil => intro cap written out hout; simp [collectFrom] at hout
    | cons s rest ih =>
      intro cap written out hout
      simp only [collectFrom] at hout
      by_cases hfit : s.chunk.length ≤ cap - written.length
      · rw [if_pos hfit] at hout
        cases hst : s.status
        · rw [hst] at hout
          exact ⟨s.chunk, (Option.some_injective _ hout).symm⟩
        · rw [hst] at hout
          obtain ⟨tail, htail⟩ := ih _ _ _ hout
          exact ⟨s.chunk ++ tail, by rw [htail, List.append_assoc]⟩
        · rw [hst] at hout
          exact absurd hout (by simp)
      · rw [if_neg hfit] at hout
        exact absurd hout (by simp)

/-- Witness for C4 at a concrete engine script: one `NEED_MORE_OUTPUT`
step writing `[1, 2]`, then a success step writing `[3]`. -/
theorem collectOutput_spec_witness :
    collectFrom 8192 [] [⟨EncStatus.needMoreOutput, [1, 2]⟩, ⟨EncStatus.success, [3]⟩] =
      collectFrom (2 * 8192) ([] ++ [1, 2]) [⟨EncStatus.success, [3]⟩] ∧
    collectFrom (2 * 8192) [1, 2] [⟨EncStatus.success, [3]⟩] = some ([1, 2] ++ [3]) :=
  ⟨collectOutput_spec.2.1 8192 [] ⟨EncStatus.needMoreOutput, [1, 2]⟩
      [⟨EncStatus.success, [3]⟩] rfl (by decide),
    (collectOutput_spec.2.2.1 (2 * 8192) [1, 2] ⟨EncStatus.success, [3]⟩ [] rfl
      (by decide)).1⟩

end JxlEnc

namespace JxlEnc

/-- `std::clamp(v, lo, hi)`: `lo` if `v < lo`, else `hi` if `hi < v`,
else `v` (as used at jxl_enc.cpp line 271 with `lo = 0.0f`, `hi = 100.0f`).
The `float` arithmetic of the quality-to-distance mapper is modelled
over `ℝ`. -/
noncomputable def stdClamp (v lo hi : ℝ) : ℝ :=
  if v < lo then lo else if hi < v then hi else v

/-- The branch structure assigning `distance` in `encode`
(jxl_enc.cpp lines 274-285), as a function of the already-clamped
quality value. -/
noncomputable def distanceBranches (q : ℝ) : ℝ :=
  if 100 ≤ q then 0
  else if 30 ≤ q then 0.1 + (100 - q) * 0.09
  else 6.4 + (2.5 : ℝ) ^ ((30 - q) / 5) / 6.25

/-- The full quality-to-distance computation of the non-lossless path of
`encode` (jxl_enc.cpp lines 271-285): clamp the quality option to
[0, 100], then select the distance branch. -/
noncomputable def qualityToDistance (quality : ℝ) : ℝ :=
  distanceBranches (stdClamp quality 0 100)

/-- The exponential branch of the mapper in isolation
(jxl_enc.cpp lines 283-284): `6.4f + std::pow(2.5f, (30.0f - quality) / 5.0f) / 6.25f`. -/
noncomputable def lossyDistanceExpBranch (q : ℝ) : ℝ :=
  6.4 + (2.5 : ℝ) ^ ((30 - q) / 5) / 6.25

theorem stdClamp_max_min (v : ℝ) : stdClamp v 0 100 = max 0 (min 100 v) := by
  unfold stdClamp
  split_ifs with h1 h2
  · rw [min_eq_right (by linarith), max_eq_left (by linarith)]
  · rw [min_eq_left (by linarith), max_eq_right (by norm_num)]
  · rw [min_eq_right (by linarith), max_eq_right (by linarith)]

theorem stdClamp_mono {a b : ℝ} (h : a ≤ b) : stdClamp a 0 100 ≤ stdClamp b 0 100 := by
  rw [stdClamp_max_min, stdClamp_max_min]
  exact max_le_max (le_refl 0) (min_le_min (le_refl 100) h)

theorem stdClamp_eq_self {v : ℝ} (h0 : 0 ≤ v) (h1 : v ≤ 100) : stdClamp v 0 100 = v := by
  rw [stdClamp_max_min, min_eq_right h1, max_eq_right h0]

theorem distanceBranches_nonneg (x : ℝ) : 0 ≤ distanceBranches x := by
  unfold distanceBranches
  split_ifs with h1 h2
  · exact le_refl 0
  · nlinarith
  · positivity

theorem distanceBranches_le_of_thirty_le {x : ℝ} (h : 30 ≤ x) :
    distanceBranches x ≤ 6.4 := by
  unfold distanceBranches
  split_ifs with h1
  · norm_num
  · nlinarith

theorem one_le_rpow_of_lt_thirty {x : ℝ} (h : x < 30) :
    (1 : ℝ) ≤ (2.5 : ℝ) ^ ((30 - x) / 5) := by
  calc (1 : ℝ) = (2.5 : ℝ) ^ (0 : ℝ) := (Real.rpow_zero 2.5).symm
    _ ≤ (2.5 : ℝ) ^ ((30 - x) / 5) := by
        rw [Real.rpow_le_rpow_left_iff (by norm_num : (1 : ℝ) < 2.5)]
        linarith

theorem distanceBranches_ge_of_lt_thirty {x : ℝ} (h : x < 30) :
    6.56 ≤ distanceBranches x := by
  unfold distanceBranches
  rw [if_neg (by linarith), if_neg (by linarith)]
  have h1 := one_le_rpow_of_lt_thirty h
  calc (6.56 : ℝ) = 6.4 + (1 : ℝ) / 6.25 := by norm_num
    _ ≤ 6.4 + (2.5 : ℝ) ^ ((30 - x) / 5) / 6.25 := by gcongr

theorem distanceBranches_anti {a b : ℝ} (hab : a ≤ b) :
    distanceBranches b ≤ distanceBranches a := by
  rcases le_or_lt 100 b with hb | hb
  · have hbv : distanceBranches b = 0 := by rw [distanceBranches, if_pos hb]
    rw [hbv]
    exact distanceBranches_nonneg a
  · rcases le_or_lt 30 b with hb30 | hb30
    · have hbv : distanceBranches b = 0.1 + (100 - b) * 0.09 := by
        rw [distanceBranches, if_neg (by linarith), if_pos hb30]
      rcases le_or_lt 30 a with ha30 | ha30
      · have hav : distanceBranches a = 0.1 + (100 - a) * 0.09 := by
          rw [distanceBranches, if_neg (by linarith), if_pos ha30]
        rw [hav, hbv]
        nlinarith
      · have h1 := distanceBranches_ge_of_lt_thirty ha30
        have h2 := distanceBranches_le_of_thirty_le hb30
        linarith
    · have ha30 : a < 30 := by linarith
      have hbv : distanceBranches b = 6.4 + (2.5 : ℝ) ^ ((30 - b) / 5) / 6.25 := by
        rw [distanceBranches, if_neg (by linarith), if_neg (by linarith)]
      have hav : distanceBranches a = 6.4 + (2.5 : ℝ) ^ ((30 - a) / 5) / 6.25 := by
        rw [distanceBranches, if_neg (by linarith), if_neg (by linarith)]
      rw [hav, hbv]
      have hr : (2.5 : ℝ) ^ ((30 - b) / 5) ≤ (2.5 : ℝ) ^ ((30 - a) / 5) := by
        rw [Real.rpow_le_rpow_left_iff (by norm_num : (1 : ℝ) < 2.5)]
        linarith
      gcongr

theorem qualityToDistance_at_hundred : qualityToDistance 100 = 0 := by
  unfold qualityToDistance stdClamp distanceBranches
  norm_num

theorem qualityToDistance_at_thirty : qualityToDistance 30 = 6.4 := by
  unfold qualityToDistance stdClamp distanceBranches
  norm_num

theorem qualityToDistance_at_zero : qualityToDistance 0 = 45.4625 := by
  unfold qualityToDistance stdClamp distanceBranches
  rw [if_neg (by norm_num), if_neg (by norm_num), if_neg (by norm_num),
    if_neg (by norm_num)]
  rw [show ((30 : ℝ) - 0) / 5 = ((6 : ℕ) : ℝ) by norm_num, Real.rpow_natCast]
  norm_num

/-- C2 (amended): in the non-lossless path the quality is clamped to
[0, 100]; the distance is 0 when the clamped quality is at least 100,
`0.1 + (100 − q) × 0.09` when it lies in [30, 100), and
`6.4 + 2.5^((30 − q)/5) / 6.25` when it is below 30; in particular q=100
gives 0, q=30 gives 6.4, and q=0 gives distance 45.4625 (approximately
45.5 — not 65.4 as originally claimed; see the counterexample). -/
theorem qualityToDistance_spec (q : ℝ) :
    stdClamp q 0 100 = max 0 (min 100 q) ∧
    (100 ≤ stdClamp q 0 100 → qualityToDistance q = 0) ∧
    (30 ≤ stdClamp q 0 100 → stdClamp q 0 100 < 100 →
      qualityToDistance q = 0.1 + (100 - stdClamp q 0 100) * 0.09) ∧
    (stdClamp q 0 100 < 30 →
      qualityToDistance q =
        6.4 + (2.5 : ℝ) ^ ((30 - stdClamp q 0 100) / 5) / 6.25) ∧
    qualityToDistance 100 = 0 ∧
    qualityToDistance 30 = 6.4 ∧
    qualityToDistance 0 = 45.4625 := by
  refine ⟨stdClamp_max_min q, ?_, ?_, ?_, qualityToDistance_at_hundred,
    qualityToDistance_at_thirty, qualityToDistance_at_zero⟩
  · intro h
    unfold qualityToDistance distanceBranches
    rw [if_pos h]
  · intro h1 h2
    unfold qualityToDistance distanceBranches
    rw [if_neg (by linarith), if_pos h1]
  · intro h
    unfold qualityToDistance distanceBranches
    rw [if_neg (by linarith), if_neg (by linarith)]

/-- Witness for C2's amended theorem at quality 50: the linear branch. -/
theorem qualityToDistance_spec_witness :
    qualityToDistance 50 = 0.1 + (100 - stdClamp 50 0 100) * 0.09 :=
  (qualityToDistance_spec 50).2.2.1
    (by rw [stdClamp_eq_self] <;> norm_num)
    (by rw [stdClamp_eq_self] <;> norm_num)

/-- Counterexample to C2 as stated: at quality 0 the code's distance is
`6.4 + 2.5^6 / 6.25 = 45.4625`, nowhere near the claimed 65.4. -/
theorem qualityToDistance_zero_counterexample :
    qualityToDistance 0 = 45.4625 ∧ (45.4625 : ℝ) + 19 < 65.4 :=
  ⟨qualityToDistance_at_zero, by norm_num⟩

/-- C8 (amended): for clamped quality below 30 the mapper evaluates the
exponential branch, and that branch evaluates to 6.56 at q = 30 while the
linear branch yields 6.4 there — the piecewise mapping is NOT continuous
at the q = 30 breakpoint; the jump is exactly 0.16. -/
theorem expBranch_breakpoint (q : ℝ) (h0 : 0 ≤ q) (h30 : q < 30) :
    qualityToDistance q = lossyDistanceExpBranch q ∧
    lossyDistanceExpBranch 30 = 6.56 ∧
    qualityToDistance 30 = 6.4 ∧
    lossyDistanceExpBranch 30 - qualityToDistance 30 = 0.16 := by
  have hb : lossyDistanceExpBranch 30 = 6.56 := by
    unfold lossyDistanceExpBranch
    rw [show ((30 : ℝ) - 30) / 5 = 0 by norm_num, Real.rpow_zero]
    norm_num
  refine ⟨?_, hb, qualityToDistance_at_thirty, ?_⟩
  · unfold qualityToDistance distanceBranches lossyDistanceExpBranch
    rw [stdClamp_eq_self h0 (by linarith)]
    rw [if_neg (by linarith), if_neg (by linarith)]
  · rw [hb, qualityToDistance_at_thirty]
    norm_num

/-- Witness for C8's amended theorem at quality 10. -/
theorem expBranch_breakpoint_witness :
    qualityToDistance 10 = lossyDistanceExpBranch 10 ∧
    lossyDistanceExpBranch 30 = 6.56 ∧
    qualityToDistance 30 = 6.4 ∧
    lossyDistanceExpBranch 30 - qualityToDistance 30 = 0.16 :=
  expBranch_breakpoint 10 (by norm_num) (by norm_num)

/-- Counterexample to C8 as stated: the exponential branch at q = 30
yields 6.56, which is not the 6.4 produced by the linear branch, so the
mapping is not continuous at that breakpoint. -/
theorem expBranch_continuity_counterexample :
    lossyDistanceExpBranch 30 = 6.56 ∧ qualityToDistance 30 = 6.4 ∧
    (6.56 : ℝ) ≠ 6.4 := by
  refine ⟨?_, qualityToDistance_at_thirty, by norm_num⟩
  unfold lossyDistanceExpBranch
  rw [show ((30 : ℝ) - 30) / 5 = 0 by norm_num, Real.rpow_zero]
  norm_num

/-- C9: the computed distance is monotonically non-increasing in quality
across all three branches and their boundaries: for `0 ≤ q1 ≤ q2 ≤ 100`
the distance at `q2` is at most the distance at `q1`. -/
theorem qualityToDistance_antitone (q1 q2 : ℝ) (h0 : 0 ≤ q1) (h12 : q1 ≤ q2)
    (h100 : q2 ≤ 100) : qualityToDistance q2 ≤ qualityToDistance q1 := by
  unfold qualityToDistance
  exact distanceBranches_anti (stdClamp_mono h12)

/-- Witness for C9 at the pair (20, 50), which straddles the q = 30
branch boundary. -/
theorem qualityToDistance_antitone_witness :
    qualityToDistance 50 ≤ qualityToDistance 20 :=
  qualityToDistance_antitone 20 50 (by norm_num) (by norm_num) (by norm_num)

end JxlEnc

namespace JxlDec

/-- The manual fallback conversion applied per-sample on the 8-bit output
path of `decodeHighBitDepth` when no ICC profile parses
(jxl_dec.cpp lines 219-227): when the bitstream was floating-point
(`exponent_bits > 0`) the sRGB OETF is applied, then the value is clamped
to [0, 1] and scaled by 255.  (The final `uint8_t` cast truncates; the
claim concerns the pre-cast real value.) -/
noncomputable def fallbackSample (exponent_bits : ℕ) (v : ℝ) : ℝ :=
  let v2 := if 0 < exponent_bits then
      (if v ≤ 0.0031308 then v * 12.92
       else 1.055 * v ^ ((1 : ℝ) / 2.4) - 0.055)
    else v
  max 0 (min 1 v2) * 255

/-- The branch decision on the 8-bit path of `decodeHighBitDepth`
(jxl_dec.cpp line 211): the color-managed transform runs only when
`icc_size > 0` and the profile parses; otherwise the manual fallback of
`fallbackSample` runs. -/
def usesFallbackTransform (icc_size : ℕ) (parse_ok : Bool) : Bool :=
  !(decide (0 < icc_size) && parse_ok)

/-- How an 8-bit conversion resolves its color handling. -/
inductive DecodeColorPath
  | colorManaged
  | fallback
deriving DecidableEq, Repr

/-- Embedding of the color-handling tail of the legacy `decode`
(jxl_dec.cpp lines 90-98): the embedded profile is parsed with
`skcms_Parse` and on failure `EXPECT_TRUE` at line 93 makes the whole
call return `val::null()` (`none`); on success the external
`skcms_Transform` runs.  No manual fallback exists in this function. -/
def decodeColorPath (parse_ok : Bool) : Option DecodeColorPath :=
  if parse_ok then some DecodeColorPath.colorManaged else none

/-- C5 (amended): on `decodeHighBitDepth`'s 8-bit output path the manual
fallback is used exactly when no embedded profile is present or it fails
to parse; for floating-point sources it applies the gamma curve
`v ≤ 0.0031308 → 12.92·v`, else `1.055·v^(1/2.4) − 0.055`, then clamps to
[0,1] and scales to [0,255]; for non-float sources it only clamps and
scales.  In the legacy `decode`, by contrast, a profile-parse failure
aborts the call with the null sentinel and no fallback runs (see the
counterexample). -/
theorem fallbackSample_spec (icc : ℕ) (p : Bool) (e : ℕ) (v : ℝ) :
    (usesFallbackTransform icc p = true ↔ icc = 0 ∨ p = false) ∧
    (0 < e → fallbackSample e v =
      max 0 (min 1 (if v ≤ 0.0031308 then 12.92 * v
        else 1.055 * v ^ ((1 : ℝ) / 2.4) - 0.055)) * 255) ∧
    (e = 0 → fallbackSample e v = max 0 (min 1 v) * 255) ∧
    (p = false → decodeColorPath p = none) ∧
    (p = true → decodeColorPath p = some DecodeColorPath.colorManaged) := by
  refine ⟨?_, ?_, ?_, ?_, ?_⟩
  · cases p <;> simp [usesFallbackTransform]
  · intro he
    simp only [fallbackSample, if_pos he]
    rw [mul_comm v 12.92]
  · intro he
    subst he
    simp [fallbackSample]
  · intro hp
    subst hp
    rfl
  · intro hp
    subst hp
    rfl

/-- Witness for C5 at a float source (exponent bits 1) and sample 2. -/
theorem fallbackSample_spec_witness :
    fallbackSample 1 2 =
      max 0 (min 1 (if (2 : ℝ) ≤ 0.0031308 then 12.92 * 2
        else 1.055 * (2 : ℝ) ^ ((1 : ℝ) / 2.4) - 0.055)) * 255 :=
  (fallbackSample_spec 0 true 1 2).2.1 (by norm_num)

/-- Counterexample to C5 as stated: the claim also covers the legacy
`decode` (jxl_dec.cpp lines 90-98), but there a profile-parse failure
returns the null sentinel — the manual per-sample fallback never runs in
that function. -/
theorem decode_no_fallback_counterexample :
    decodeColorPath false = none ∧
    decodeColorPath false ≠ some DecodeColorPath.fallback :=
  ⟨rfl, by decide⟩

end JxlDec
